import Mathlib

/-
Verification of the chunked HDF5 frame-writer engine of the repository
(`mflow_processor/h5_chunked_writer.py`, class `HDF5ChunkedWriterProcessor`).

The engine state is embedded shallowly: the h5py backend is represented by an
in-memory record of the open file's dataset (its current capacity, the raw
chunk writes performed on it and its attributes) together with an association
list modelling the files on disk, keyed by the `chunk_number` value substituted
into the output-file template.  Python integers are `Int`; Python `//` on ints
is floor division, written `Int.fdiv` here.  The helper module
`mflow_processor/utils/h5_utils.py` (create_dataset, expand_dataset,
compact_dataset, set_dataset_attributes, populate_h5_file) is not part of the
sources; those five functions are modelled from the spec and say so in their
doc comments.
-/

namespace MflowH5Writer

/-- Engine configuration, the parameters of `HDF5ChunkedWriterProcessor`
relevant to the storage engine.  `framesPerFile = 0` models the Python
`self.frames_per_file` being `None` or `0` (both falsy in
`if self.frames_per_file:`). -/
structure Cfg where
  datasetName : String
  framesPerFile : Nat
  /-- Modelled from the spec: the backend's default initial allocation of the
  dataset created by the missing `create_dataset` (spec §4.3: "initializes
  `dataset_capacity` to the backend's default/initial allocation"). -/
  initialCapacity : Nat
  /-- The configured `h5_dataset_attributes`, written verbatim at close. -/
  h5DatasetAttributes : List (String × Int)
deriving DecidableEq, Repr

/-- The open HDF5 file together with its single primary dataset:
`name` is the `chunk_number` substituted into the filename template,
`capacity` is `dataset.shape[0]`, `writes` records the
`write_direct_chunk` calls (most recent first, as `(slot, payload)`), and
`attrs` the attributes set on the file. -/
structure H5File where
  name : Int
  capacity : Nat
  writes : List (Int × Int)
  attrs : List (String × Int)
deriving DecidableEq, Repr

/-- The mutable state of `HDF5ChunkedWriterProcessor` plus the on-disk files.
`currentDatasetSize` starts at 0 (in Python the attribute only exists after
`_create_file`, which always runs before it is read). -/
structure WriterState where
  cfg : Cfg
  fs : List (Int × H5File)
  file : Option H5File
  currentDatasetSize : Nat
  maxFrameIndex : Int
  currentFrameChunk : Option Int
deriving DecidableEq, Repr

/-- Observable events of one engine operation, used for the temporal claims:
attribute finalization (`_set_data_chunk_attributes`), file close, file
open/truncate (`h5py.File(filename, "w")`), high-water-mark update
(`self._max_frame_index = frame_index`) and the raw chunk write
(`write_direct_chunk`). -/
inductive Ev where
  | finalizeAttrs (chunk low high : Int)
  | closeFile (chunk : Int)
  | openFile (chunk : Int)
  | hwmUpdate (v : Int)
  | writeChunk (slot payload : Int)
deriving DecidableEq, Repr

def Ev.isFinalize : Ev → Bool
  | .finalizeAttrs _ _ _ => true
  | _ => false

def Ev.isClose : Ev → Bool
  | .closeFile _ => true
  | _ => false

def Ev.isOpen : Ev → Bool
  | .openFile _ => true
  | _ => false

def Ev.isHwm : Ev → Bool
  | .hwmUpdate _ => true
  | _ => false

def Ev.isWrite : Ev → Bool
  | .writeChunk _ _ => true
  | _ => false

/-- Remove the on-disk file stored under chunk number `k` (what opening the
path with mode "w" does to a pre-existing file). -/
def fsErase (fs : List (Int × H5File)) (k : Int) : List (Int × H5File) :=
  fs.filter (fun p => p.1 != k)

/-- Look up the on-disk file stored under chunk number `k`. -/
def fsGet (fs : List (Int × H5File)) (k : Int) : Option H5File :=
  (fs.find? (fun p => p.1 == k)).map Prod.snd

/-- Modelled from the spec: `create_dataset` of the missing
`mflow_processor/utils/h5_utils.py`.  Per spec §4.3 it creates the primary
dataset of a freshly created file with the backend's default initial
allocation, taken here from the configuration. -/
def create_dataset (chunkName : Int) (initialCapacity : Nat) : H5File :=
  { name := chunkName, capacity := initialCapacity, writes := [], attrs := [] }

/-- Modelled from the spec: `expand_dataset` of the missing `h5_utils.py`.
Per spec §4.2 it grows the dataset to at least `frame_index + 1` and returns
the backend's actual new size; the minimal compliant growth is used. -/
def expand_dataset (f : H5File) (frameIndex : Int) : Nat × H5File :=
  ((frameIndex + 1).toNat, { f with capacity := (frameIndex + 1).toNat })

/-- Modelled from the spec: `compact_dataset` of the missing `h5_utils.py`.
Per spec §4.3/§8 the shrink-to-fit resizes the dataset down to
`max_frame_index + 1`, where the engine passes `self._max_frame_index`. -/
def compact_dataset (f : H5File) (maxFrameIndex : Int) : H5File :=
  { f with capacity := (maxFrameIndex + 1).toNat }

/-- Modelled from the spec: `set_dataset_attributes` of the missing
`h5_utils.py` writes each given key/value attribute verbatim. -/
def set_dataset_attributes (f : H5File) (kvs : List (String × Int)) : H5File :=
  { f with attrs := f.attrs ++ kvs }

/-- Modelled from the spec: `populate_h5_file` of the missing `h5_utils.py`
writes the configured group attributes, extra datasets and dataset attributes
verbatim at close; only the dataset attributes are tracked by this model. -/
def populate_h5_file (f : H5File) (dsAttrs : List (String × Int)) : H5File :=
  { f with attrs := f.attrs ++ dsAttrs }

/-- The value `min_frame_in_dataset` computed by `_set_data_chunk_attributes`
(h5_chunked_writer.py lines 112-124): `(self._current_frame_chunk - 1) *
self.frames_per_file` when chunking is enabled, else `0`.  In the source
`_current_frame_chunk` is always an integer when this runs (set by
`_create_file`); the `getD 0` default is never exercised on those states. -/
def min_frame_in_dataset (cfg : Cfg) (currentFrameChunk : Option Int) : Int :=
  if cfg.framesPerFile ≠ 0 then
    (currentFrameChunk.getD 0 - 1) * (cfg.framesPerFile : Int)
  else 0

/-- The two key/value pairs inserted by `_set_data_chunk_attributes`:
`"<dataset_name>:image_nr_low"` and `"<dataset_name>:image_nr_high"`, the
frame numbers (1-based) rather than the indices. -/
def set_data_chunk_attributes_kvs (cfg : Cfg) (currentFrameChunk : Option Int)
    (maxFrameIndex : Int) : List (String × Int) :=
  let minF := min_frame_in_dataset cfg currentFrameChunk
  let maxF := maxFrameIndex + minF
  [(cfg.datasetName ++ ":image_nr_low", minF + 1),
   (cfg.datasetName ++ ":image_nr_high", maxF + 1)]

/-- The `image_nr` attributes the next `_close_file` would record on the state
`s`: empty when no file is open. -/
def close_recorded_attrs (s : WriterState) : List (String × Int) :=
  match s.file with
  | none => []
  | some _ => set_data_chunk_attributes_kvs s.cfg s.currentFrameChunk s.maxFrameIndex

/-- `_close_file` (h5_chunked_writer.py lines 126-139): compact the dataset to
`_max_frame_index + 1`, set the `image_nr` attributes, populate the configured
additional attributes, close the file (flushing it to disk under its chunk
number) and reset `_file`, `_current_frame_chunk` and `_max_frame_index`.
In the source every caller guards with `if self._file`, so the no-file case is
modelled as the identity. -/
def close_file (s : WriterState) : WriterState × List Ev :=
  match s.file with
  | none => (s, [])
  | some f =>
    let d1 := compact_dataset f s.maxFrameIndex
    let kvs := set_data_chunk_attributes_kvs s.cfg s.currentFrameChunk s.maxFrameIndex
    let d2 := set_dataset_attributes d1 kvs
    let d3 := populate_h5_file d2 s.cfg.h5DatasetAttributes
    let low := min_frame_in_dataset s.cfg s.currentFrameChunk + 1
    let high := s.maxFrameIndex + min_frame_in_dataset s.cfg s.currentFrameChunk + 1
    ({ s with fs := (f.name, d3) :: fsErase s.fs f.name,
              file := none, currentFrameChunk := none, maxFrameIndex := 0 },
     [Ev.finalizeAttrs f.name low high, Ev.closeFile f.name])

/-- `_create_file` (lines 86-110): close any open file, truncate the target
path (`h5py.File(filename, "w")`), create the dataset, record
`_current_dataset_size = dataset.shape[0]` and `_current_frame_chunk`.  The
formatted filename is represented by the substituted `chunk_number`. -/
def create_file (s : WriterState) (frameChunk : Int) : WriterState × List Ev :=
  let closed := if s.file.isSome then close_file s else (s, [])
  let s1 := closed.1
  let d := create_dataset frameChunk s1.cfg.initialCapacity
  ({ s1 with fs := fsErase s1.fs frameChunk,
             file := some d,
             currentDatasetSize := d.capacity,
             currentFrameChunk := some frameChunk },
   closed.2 ++ [Ev.openFile frameChunk])

/-- The routing/opening block of `_prepare_storage_for_frame` (lines 150-156):
with chunking enabled, `frame_chunk = frame_index // frames_per_file + 1`
(Python floor division), a mismatching chunk triggers `_create_file`, and the
frame index is rebased by `(frame_chunk - 1) * frames_per_file`; with chunking
disabled a file is created lazily on the first frame. -/
def route_and_open (s : WriterState) (frameIndex : Int) :
    WriterState × Int × List Ev :=
  if s.cfg.framesPerFile ≠ 0 then
    let frameChunk := Int.fdiv frameIndex (s.cfg.framesPerFile : Int) + 1
    let opened :=
      if s.currentFrameChunk ≠ some frameChunk then create_file s frameChunk
      else (s, [])
    (opened.1, frameIndex - (frameChunk - 1) * (s.cfg.framesPerFile : Int), opened.2)
  else if s.file.isNone then
    let opened := create_file s 0
    (opened.1, frameIndex, opened.2)
  else
    (s, frameIndex, [])

/-- The capacity block of `_prepare_storage_for_frame` (lines 158-160):
`if not frame_index < self._current_dataset_size:` expand the dataset and
record the backend's new size.  The dataset exists whenever this runs in the
source; the no-file case is the identity. -/
def expand_step (s : WriterState) (frameIndex : Int) : WriterState :=
  if frameIndex < (s.currentDatasetSize : Int) then s
  else
    match s.file with
    | some f =>
      let r := expand_dataset f frameIndex
      { s with file := some r.2, currentDatasetSize := r.1 }
    | none => s

/-- The tracking block of `_prepare_storage_for_frame` (lines 162-164):
`if frame_index > self._max_frame_index:` advance the high-water-mark. -/
def hwm_step (s : WriterState) (frameIndex : Int) : WriterState × List Ev :=
  if s.maxFrameIndex < frameIndex then
    ({ s with maxFrameIndex := frameIndex }, [Ev.hwmUpdate frameIndex])
  else (s, [])

/-- `_prepare_storage_for_frame` (lines 141-169): route and open, expand,
advance the high-water-mark, and return the relative frame index. -/
def prepare_storage_for_frame (s : WriterState) (frameIndex : Int) :
    WriterState × Int × List Ev :=
  let routed := route_and_open s frameIndex
  let s2 := expand_step routed.1 routed.2.1
  let tracked := hwm_step s2 routed.2.1
  (tracked.1, routed.2.1, routed.2.2 ++ tracked.2)

/-- `process_message` (lines 171-186): prepare storage for the frame, then
`write_direct_chunk((relative_frame_index, 0, 0), bytes)` on the dataset.
Plugin hooks run outside the storage engine and are not modelled.  The
dataset exists whenever the write runs in the source. -/
def process_message (s : WriterState) (frameIndex payload : Int) :
    WriterState × List Ev :=
  let prepared := prepare_storage_for_frame s frameIndex
  let rel := prepared.2.1
  let s2 :=
    match prepared.1.file with
    | some f => { prepared.1 with file := some { f with writes := (rel, payload) :: f.writes } }
    | none => prepared.1
  (s2, prepared.2.2 ++ [Ev.writeChunk rel payload])

/-- `stop` (lines 188-193): close the file if one is open. -/
def stop (s : WriterState) : WriterState × List Ev :=
  if s.file.isSome then close_file s else (s, [])

/-- Fold `process_message` over a list of `(frame_index, payload)` pairs. -/
def runFrames (s : WriterState) (frames : List (Int × Int)) : WriterState :=
  frames.foldl (fun st fr => (process_message st fr.1 fr.2).1) s

/-- Example configuration with chunking enabled, four frames per file. -/
def cfg4 : Cfg :=
  { datasetName := "data", framesPerFile := 4, initialCapacity := 1,
    h5DatasetAttributes := [] }

/-- Fresh engine state for `cfg4`. -/
def init4 : WriterState :=
  { cfg := cfg4, fs := [], file := none, currentDatasetSize := 0,
    maxFrameIndex := 0, currentFrameChunk := none }

/-- Example configuration with chunking disabled. -/
def cfg0 : Cfg :=
  { datasetName := "data", framesPerFile := 0, initialCapacity := 1,
    h5DatasetAttributes := [] }

/-- Fresh engine state for `cfg0`. -/
def init0 : WriterState :=
  { cfg := cfg0, fs := [], file := none, currentDatasetSize := 0,
    maxFrameIndex := 0, currentFrameChunk := none }

/-- Example configuration whose backend initial allocation is five slots. -/
def cfg5 : Cfg :=
  { datasetName := "data", framesPerFile := 0, initialCapacity := 5,
    h5DatasetAttributes := [] }

/-- Fresh engine state for `cfg5`. -/
def init5 : WriterState :=
  { cfg := cfg5, fs := [], file := none, currentDatasetSize := 0,
    maxFrameIndex := 0, currentFrameChunk := none }

/-- Two engine states agree on everything the per-container tracking and the
recorded attributes can depend on: configuration, open file, high-water-mark
and current chunk, and (whenever a file is open) the recorded dataset size.
The on-disk files and, for closed states, the stale dataset size may differ. -/
def coreEq (s t : WriterState) : Prop :=
  s.cfg = t.cfg ∧ s.file = t.file ∧ s.maxFrameIndex = t.maxFrameIndex ∧
  s.currentFrameChunk = t.currentFrameChunk ∧
  (s.file ≠ none → s.currentDatasetSize = t.currentDatasetSize)

/- ## Small projection lemmas about the operations -/

theorem expand_step_proj (s : WriterState) (fi : Int) :
    (expand_step s fi).cfg = s.cfg ∧
    (expand_step s fi).fs = s.fs ∧
    (expand_step s fi).maxFrameIndex = s.maxFrameIndex ∧
    (expand_step s fi).currentFrameChunk = s.currentFrameChunk := by
  unfold expand_step
  split
  · exact ⟨rfl, rfl, rfl, rfl⟩
  · split <;> exact ⟨rfl, rfl, rfl, rfl⟩

theorem hwm_step_proj (s : WriterState) (fi : Int) :
    (hwm_step s fi).1.cfg = s.cfg ∧
    (hwm_step s fi).1.fs = s.fs ∧
    (hwm_step s fi).1.file = s.file ∧
    (hwm_step s fi).1.currentDatasetSize = s.currentDatasetSize ∧
    (hwm_step s fi).1.currentFrameChunk = s.currentFrameChunk := by
  unfold hwm_step
  split <;> exact ⟨rfl, rfl, rfl, rfl, rfl⟩

theorem close_file_proj (s : WriterState) :
    (close_file s).1.cfg = s.cfg ∧
    (close_file s).1.file = none ∨ (close_file s).1 = s ∧ s.file = none := by
  unfold close_file
  cases h : s.file
  · exact Or.inr ⟨rfl, rfl⟩
  · exact Or.inl ⟨rfl, rfl⟩

theorem close_file_cfg (s : WriterState) : (close_file s).1.cfg = s.cfg := by
  unfold close_file
  cases h : s.file <;> rfl

theorem close_file_file (s : WriterState) (h : s.file = none) :
    (close_file s).1 = s ∧ (close_file s).2 = [] := by
  unfold close_file
  rw [h]
  exact ⟨rfl, rfl⟩

theorem create_file_proj (s : WriterState) (k : Int) :
    (create_file s k).1.cfg = s.cfg ∧
    (create_file s k).1.file = some (create_dataset k s.cfg.initialCapacity) ∧
    (create_file s k).1.currentDatasetSize = s.cfg.initialCapacity ∧
    (create_file s k).1.currentFrameChunk = some k := by
  unfold create_file
  split
  · exact ⟨close_file_cfg s, by simp [create_dataset, close_file_cfg s],
      by simp [create_dataset, close_file_cfg s], rfl⟩
  · exact ⟨rfl, rfl, rfl, rfl⟩

theorem prepare_unfold (s : WriterState) (fi : Int) :
    prepare_storage_for_frame s fi =
      ((hwm_step (expand_step (route_and_open s fi).1 (route_and_open s fi).2.1)
          (route_and_open s fi).2.1).1,
       (route_and_open s fi).2.1,
       (route_and_open s fi).2.2 ++
         (hwm_step (expand_step (route_and_open s fi).1 (route_and_open s fi).2.1)
           (route_and_open s fi).2.1).2) := rfl

theorem process_message_unfold (s : WriterState) (fi p : Int) :
    process_message s fi p =
      ((match (prepare_storage_for_frame s fi).1.file with
        | some f =>
          { (prepare_storage_for_frame s fi).1 with
              file := some { f with
                writes := ((prepare_storage_for_frame s fi).2.1, p) :: f.writes } }
        | none => (prepare_storage_for_frame s fi).1),
       (prepare_storage_for_frame s fi).2.2 ++
         [Ev.writeChunk (prepare_storage_for_frame s fi).2.1 p]) := rfl

theorem route_and_open_chunking (s : WriterState) (fi : Int)
    (hC : s.cfg.framesPerFile ≠ 0) :
    (route_and_open s fi).2.1 = fi % (s.cfg.framesPerFile : Int) ∧
    (route_and_open s fi).1.currentFrameChunk =
      some (Int.fdiv fi (s.cfg.framesPerFile : Int) + 1) := by
  have h0 : (0 : Int) ≤ (s.cfg.framesPerFile : Int) := Int.ofNat_nonneg _
  unfold route_and_open
  rw [if_pos hC]
  constructor
  · simp only [add_sub_cancel_right, Int.fdiv_eq_ediv _ h0, Int.emod_def]
    ring
  · simp only
    split
    · exact (create_file_proj s _).2.2.2
    · next h => exact not_not.mp h

theorem route_and_open_disabled (s : WriterState) (fi : Int)
    (h : s.cfg.framesPerFile = 0) :
    (route_and_open s fi).2.1 = fi ∧
    (s.file = none → (route_and_open s fi).1.currentFrameChunk = some 0) := by
  unfold route_and_open
  rw [if_neg (by simp [h])]
  constructor
  · split <;> rfl
  · intro hf
    rw [if_pos (by simp [hf])]
    exact (create_file_proj s 0).2.2.2

theorem prepare_chunk_eq_route (s : WriterState) (fi : Int) :
    (prepare_storage_for_frame s fi).1.currentFrameChunk =
      (route_and_open s fi).1.currentFrameChunk := by
  rw [prepare_unfold]
  simp only
  rw [(hwm_step_proj _ _).2.2.2.2, (expand_step_proj _ _).2.2.2]

/-- C1: for every non-negative `frame_index` and chunking capacity `C > 0`,
the routing step of `_prepare_storage_for_frame` assigns the frame to
`chunk_id = 1 + frame_index div C` and relative slot `frame_index mod C`
(so `0 ≤ relative_slot < C`); when chunking is disabled (`frames_per_file`
is 0 or unset) the relative slot equals `frame_index` unchanged and the
chunk id is the constant 0 (recorded when the file is first created). -/
theorem C1_routing (s : WriterState) (fi : Int) (hfi : 0 ≤ fi) :
    (∀ C : Nat, C ≠ 0 → s.cfg.framesPerFile = C →
      ((prepare_storage_for_frame s fi).2.1 = fi % (C : Int) ∧
       (0 : Int) ≤ fi % (C : Int) ∧ fi % (C : Int) < (C : Int) ∧
       (prepare_storage_for_frame s fi).1.currentFrameChunk =
         some (1 + fi / (C : Int)))) ∧
    (s.cfg.framesPerFile = 0 →
      ((prepare_storage_for_frame s fi).2.1 = fi ∧
       (s.file = none →
         (prepare_storage_for_frame s fi).1.currentFrameChunk = some 0))) := by
  constructor
  · intro C hC hfpf
    have hC' : (C : Int) ≠ 0 := by exact_mod_cast hC
    have hCpos : (0 : Int) < (C : Int) := by positivity
    have h := route_and_open_chunking s fi (by rw [hfpf]; exact hC)
    refine ⟨?_, Int.emod_nonneg fi hC', ?_, ?_⟩
    · rw [prepare_unfold]; simp only; rw [h.1, hfpf]
    · exact Int.emod_lt_of_pos fi hCpos
    · rw [prepare_chunk_eq_route, h.2, hfpf,
        Int.fdiv_eq_ediv _ (Int.ofNat_nonneg _), add_comm]
  · intro hfpf
    have h := route_and_open_disabled s fi hfpf
    refine ⟨?_, ?_⟩
    · rw [prepare_unfold]; simp only; rw [h.1]
    · intro hf
      rw [prepare_chunk_eq_route, h.2 hf]

/-- C1 witness: with capacity 4 and frame index 5 the routing yields relative
slot `5 mod 4 = 1` within bounds and chunk id `1 + 5 div 4 = 2`. -/
theorem C1_routing_witness :
    (prepare_storage_for_frame init4 5).2.1 = (5 : Int) % ((4 : Nat) : Int) ∧
    (0 : Int) ≤ (5 : Int) % ((4 : Nat) : Int) ∧
    (5 : Int) % ((4 : Nat) : Int) < ((4 : Nat) : Int) ∧
    (prepare_storage_for_frame init4 5).1.currentFrameChunk =
      some (1 + (5 : Int) / ((4 : Nat) : Int)) :=
  (C1_routing init4 5 (by decide)).1 4 (by decide) rfl

/-- C3 counterexample: with capacity 4, submitting frame index `-1` does not
fail and is not rejected: it is silently routed to chunk id 0 and relative
slot 3, a file for chunk 0 is created (the engine state changes), and the
payload is written at slot 3. -/
theorem C3_counterexample :
    (prepare_storage_for_frame init4 (-1)).2.1 = 3 ∧
    (prepare_storage_for_frame init4 (-1)).1.currentFrameChunk = some 0 ∧
    Ev.writeChunk 3 9 ∈ (process_message init4 (-1) 9).2 ∧
    (process_message init4 (-1) 9).1 ≠ init4 := by decide

/-- C3 (amended): a negative `frame_index` is not validated and never fails
fast.  With chunking capacity `C > 0` it is silently routed: the relative
slot is `frame_index mod C` (Python floor semantics, so `0 ≤ slot < C`), the
current chunk becomes `frame_index // C + 1 ≤ 0`, and the payload is written
at that slot. -/
theorem C3_negative_silently_routed (s : WriterState) (fi : Int) (hneg : fi < 0)
    (C : Nat) (hC : C ≠ 0) (hfpf : s.cfg.framesPerFile = C) (p : Int) :
    (prepare_storage_for_frame s fi).2.1 = fi % (C : Int) ∧
    (0 : Int) ≤ fi % (C : Int) ∧ fi % (C : Int) < (C : Int) ∧
    (prepare_storage_for_frame s fi).1.currentFrameChunk =
      some (Int.fdiv fi (C : Int) + 1) ∧
    Int.fdiv fi (C : Int) + 1 ≤ 0 ∧
    Ev.writeChunk (fi % (C : Int)) p ∈ (process_message s fi p).2 := by
  have hC' : (C : Int) ≠ 0 := by exact_mod_cast hC
  have hCpos : (0 : Int) < (C : Int) := by positivity
  have h := route_and_open_chunking s fi (by rw [hfpf]; exact hC)
  have hrel : (prepare_storage_for_frame s fi).2.1 = fi % (C : Int) := by
    rw [prepare_unfold]; simp only; rw [h.1, hfpf]
  refine ⟨hrel, Int.emod_nonneg fi hC', Int.emod_lt_of_pos fi hCpos, ?_, ?_, ?_⟩
  · rw [prepare_chunk_eq_route, h.2, hfpf]
  · have hdiv : Int.fdiv fi (C : Int) < 0 := by
      rw [Int.fdiv_eq_ediv _ (Int.ofNat_nonneg _)]
      exact Int.ediv_neg' hneg hCpos
    omega
  · rw [process_message_unfold]
    simp only [hrel]
    exact List.mem_append_right _ (List.mem_singleton.mpr rfl)

/-- C3 witness for the amended statement: frame index `-1` with capacity 4 is
routed to relative slot 3 of chunk 0 and payload 9 is written there. -/
theorem C3_negative_witness :
    (prepare_storage_for_frame init4 (-1)).2.1 = (-1 : Int) % ((4 : Nat) : Int) ∧
    (0 : Int) ≤ (-1 : Int) % ((4 : Nat) : Int) ∧
    (-1 : Int) % ((4 : Nat) : Int) < ((4 : Nat) : Int) ∧
    (prepare_storage_for_frame init4 (-1)).1.currentFrameChunk =
      some (Int.fdiv (-1) ((4 : Nat) : Int) + 1) ∧
    Int.fdiv (-1) ((4 : Nat) : Int) + 1 ≤ 0 ∧
    Ev.writeChunk ((-1 : Int) % ((4 : Nat) : Int)) 9 ∈
      (process_message init4 (-1) 9).2 :=
  C3_negative_silently_routed init4 (-1) (by decide) 4 (by decide) rfl 9

theorem close_file_some (s : WriterState) (f : H5File) (h : s.file = some f) :
    close_file s =
      ({ s with
          fs := (f.name,
            { f with
                capacity := (s.maxFrameIndex + 1).toNat,
                attrs := f.attrs ++
                  set_data_chunk_attributes_kvs s.cfg s.currentFrameChunk
                    s.maxFrameIndex ++
                  s.cfg.h5DatasetAttributes }) :: fsErase s.fs f.name,
          file := none, currentFrameChunk := none, maxFrameIndex := 0 },
       [Ev.finalizeAttrs f.name (min_frame_in_dataset s.cfg s.currentFrameChunk + 1)
          (s.maxFrameIndex + min_frame_in_dataset s.cfg s.currentFrameChunk + 1),
        Ev.closeFile f.name]) := by
  unfold close_file
  rw [h]
  rfl

theorem fsGet_cons_self (fs : List (Int × H5File)) (k : Int) (v : H5File) :
    fsGet ((k, v) :: fs) k = some v := by
  simp [fsGet]

theorem kvs_formula (cfg : Cfg) (c maxIdx : Int) :
    set_data_chunk_attributes_kvs cfg (some c) maxIdx =
      [(cfg.datasetName ++ ":image_nr_low", min_frame_in_dataset cfg (some c) + 1),
       (cfg.datasetName ++ ":image_nr_high",
         (min_frame_in_dataset cfg (some c) + 1) + maxIdx)] := by
  simp only [set_data_chunk_attributes_kvs, List.cons.injEq, Prod.mk.injEq,
    and_true, true_and]
  ring

/-- C2: for every container closed by `_close_file`, the attributes
`<dataset_name>:image_nr_low` and `<dataset_name>:image_nr_high` recorded on
the closed file are 1-based global frame numbers: `low = (chunk_id - 1) *
frames_per_file + 1` (or `1` when chunking is disabled) and
`high = low + max_written_slot`. -/
theorem C2_close_attributes (s : WriterState) (f : H5File) (c : Int)
    (hf : s.file = some f) (hc : s.currentFrameChunk = some c) :
    fsGet (close_file s).1.fs f.name = some
      { f with
          capacity := (s.maxFrameIndex + 1).toNat,
          attrs := f.attrs ++
            [(s.cfg.datasetName ++ ":image_nr_low",
              (if s.cfg.framesPerFile ≠ 0 then
                 (c - 1) * (s.cfg.framesPerFile : Int) else 0) + 1),
             (s.cfg.datasetName ++ ":image_nr_high",
              ((if s.cfg.framesPerFile ≠ 0 then
                  (c - 1) * (s.cfg.framesPerFile : Int) else 0) + 1) +
                s.maxFrameIndex)] ++
            s.cfg.h5DatasetAttributes } := by
  rw [close_file_some s f hf]
  simp only [fsGet_cons_self, hc, kvs_formula, Option.some.injEq]
  congr 2

/-- C2 witness: with `frames_per_file = 4` the container for chunk 3 holding
frames 8 and 9 records `image_nr_low = 9` and `image_nr_high = 10`. -/
theorem C2_close_attributes_witness :
    fsGet (close_file (runFrames init4 [(8, 70), (9, 71)])).1.fs 3 = some
      { name := 3, capacity := 2, writes := [(1, 71), (0, 70)],
        attrs := [("data:image_nr_low", 9), ("data:image_nr_high", 10)] } :=
  (C2_close_attributes (runFrames init4 [(8, 70), (9, 71)])
      ⟨3, 2, [(1, 71), (0, 70)], []⟩ 3 (by decide) (by decide)).trans (by decide)

/-- C5 counterexample: with the backend initial allocation modelled as 5
slots, a container closed with nothing ever written to it is still resized:
its on-disk capacity ends at `1` (`_max_frame_index` starts at 0 and
`compact_dataset` resizes to `_max_frame_index + 1`), not at the initial
allocation 5, so the shrink is not a no-op. -/
theorem C5_counterexample :
    init5.cfg.initialCapacity = 5 ∧
    ((create_file init5 0).1.file.map H5File.writes) = some [] ∧
    (fsGet (stop ((create_file init5 0).1)).1.fs 0).map H5File.capacity =
      some 1 := by decide

/-- C5 (amended): closing a container always resizes its dataset to
`_max_frame_index + 1`.  When at least one frame was written this is exactly
`max_written_slot + 1` as claimed; when nothing was written the high-water
mark is still at its initial value 0, so the capacity becomes 1 regardless of
the initial allocation. -/
theorem C5_close_capacity (s : WriterState) (f : H5File) (hf : s.file = some f) :
    (fsGet (close_file s).1.fs f.name).map H5File.capacity =
      some ((s.maxFrameIndex + 1).toNat) := by
  rw [close_file_some s f hf]
  simp [fsGet_cons_self]

/-- C5 witness: after writing relative slots 0 and 1 of chunk 3 the close
shrinks the dataset capacity to `1 + 1 = 2`. -/
theorem C5_close_capacity_witness :
    (fsGet (close_file (runFrames init4 [(8, 70), (9, 71)])).1.fs 3).map
        H5File.capacity =
      some (((runFrames init4 [(8, 70), (9, 71)]).maxFrameIndex + 1).toNat) :=
  C5_close_capacity (runFrames init4 [(8, 70), (9, 71)])
    ⟨3, 2, [(1, 71), (0, 70)], []⟩ (by decide)

/-- C9: because `_max_frame_index` is initialized to 0 rather than a distinct
empty sentinel, a container closed with no frames ever written records
exactly the same `image_nr_low`/`image_nr_high` attributes — both the chunk's
1-based starting frame number — as a container in which only relative slot 0
was written; the finalized metadata cannot distinguish the two. -/
theorem C9_empty_indistinguishable (s1 s2 : WriterState) (f1 f2 : H5File)
    (c : Int)
    (h1 : s1.file = some f1) (h2 : s2.file = some f2)
    (hcfg : s1.cfg = s2.cfg)
    (hc1 : s1.currentFrameChunk = some c) (hc2 : s2.currentFrameChunk = some c)
    (hm1 : s1.maxFrameIndex = 0) (hm2 : s2.maxFrameIndex = 0)
    (hw1 : f1.writes = [])
    (ha1 : f1.attrs = []) (ha2 : f2.attrs = [])
    (hn1 : f1.name = c) (hn2 : f2.name = c)
    (hda : s1.cfg.h5DatasetAttributes = []) :
    ((fsGet (close_file s1).1.fs c).map H5File.attrs =
      (fsGet (close_file s2).1.fs c).map H5File.attrs) ∧
    (fsGet (close_file s1).1.fs c).map H5File.attrs =
      some [(s1.cfg.datasetName ++ ":image_nr_low",
             min_frame_in_dataset s1.cfg (some c) + 1),
            (s1.cfg.datasetName ++ ":image_nr_high",
             min_frame_in_dataset s1.cfg (some c) + 1)] := by
  have e1 := close_file_some s1 f1 h1
  have e2 := close_file_some s2 f2 h2
  rw [e1, e2]
  simp only [hn1, hn2, fsGet_cons_self, Option.map_some, hc1, hc2, hm1, hm2,
    kvs_formula, ha1, ha2, hda, ← hcfg]
  simp

/-- C9 witness: with `frames_per_file = 4`, closing the chunk-3 container
with nothing written and closing it after writing only relative slot 0 both
record `image_nr_low = image_nr_high = 9`. -/
theorem C9_empty_indistinguishable_witness :
    ((fsGet (close_file ((create_file init4 3).1)).1.fs 3).map H5File.attrs =
      (fsGet (close_file (runFrames init4 [(8, 70)])).1.fs 3).map H5File.attrs) ∧
    (fsGet (close_file ((create_file init4 3).1)).1.fs 3).map H5File.attrs =
      some [("data:image_nr_low", 9), ("data:image_nr_high", 9)] := by
  have h := C9_empty_indistinguishable ((create_file init4 3).1)
    (runFrames init4 [(8, 70)]) ⟨3, 1, [], []⟩ ⟨3, 1, [(0, 70)], []⟩ 3
    (by decide) (by decide) (by decide) (by decide) (by decide) (by decide)
    (by decide) (by decide) (by decide) (by decide) (by decide) (by decide)
    (by decide)
  exact ⟨h.1, h.2.trans (by decide)⟩

theorem process_message_events (s : WriterState) (fi p : Int) :
    (process_message s fi p).2 =
      (prepare_storage_for_frame s fi).2.2 ++
        [Ev.writeChunk (prepare_storage_for_frame s fi).2.1 p] := rfl

theorem process_message_maxFrameIndex (s : WriterState) (fi p : Int) :
    (process_message s fi p).1.maxFrameIndex =
      (prepare_storage_for_frame s fi).1.maxFrameIndex := by
  rw [process_message_unfold]
  split <;> rfl

theorem prepare_events (s : WriterState) (fi : Int) :
    (prepare_storage_for_frame s fi).2.2 =
      (route_and_open s fi).2.2 ++
        (hwm_step (expand_step (route_and_open s fi).1 (route_and_open s fi).2.1)
          (route_and_open s fi).2.1).2 := rfl

theorem hwm_step_events (s : WriterState) (fi : Int) :
    (hwm_step s fi).2 = [] ∨ (hwm_step s fi).2 = [Ev.hwmUpdate fi] := by
  unfold hwm_step
  split
  · exact Or.inr rfl
  · exact Or.inl rfl

theorem stop_of_some (s : WriterState) (f : H5File) (h : s.file = some f) :
    stop s = close_file s := by
  unfold stop
  rw [if_pos (by rw [h]; rfl)]

theorem stop_of_none (s : WriterState) (h : s.file = none) : stop s = (s, []) := by
  unfold stop
  rw [if_neg (by rw [h]; simp)]

theorem route_events_rollover (s : WriterState) (f : H5File) (c fi : Int)
    (hf : s.file = some f) (hc : s.currentFrameChunk = some c)
    (hfpf : s.cfg.framesPerFile ≠ 0)
    (hdiff : c ≠ Int.fdiv fi (s.cfg.framesPerFile : Int) + 1) :
    (route_and_open s fi).2.2 =
      [Ev.finalizeAttrs f.name
         (min_frame_in_dataset s.cfg s.currentFrameChunk + 1)
         (s.maxFrameIndex + min_frame_in_dataset s.cfg s.currentFrameChunk + 1),
       Ev.closeFile f.name,
       Ev.openFile (Int.fdiv fi (s.cfg.framesPerFile : Int) + 1)] := by
  unfold route_and_open
  rw [if_pos hfpf]
  simp only
  rw [if_pos (by rw [hc]; intro hEq; exact hdiff (Option.some.inj hEq))]
  unfold create_file
  rw [if_pos (by rw [hf]; rfl), close_file_some s f hf]
  rfl

/-- C4 counterexample: submitting frame index 5 to a fresh unbounded writer
advances the high-water-mark to 5 inside `_prepare_storage_for_frame`, at a
point where the open dataset holds no writes at all, and in the event trace
of `process_message` the high-water-mark update (index 1) strictly precedes
the payload write (index 2) — the mark is advanced before the write, not
after it. -/
theorem C4_counterexample :
    (prepare_storage_for_frame init0 5).1.maxFrameIndex = 5 ∧
    ((prepare_storage_for_frame init0 5).1.file.map H5File.writes) = some [] ∧
    (process_message init0 5 77).2.findIdx? Ev.isHwm = some 1 ∧
    (process_message init0 5 77).2.findIdx? Ev.isWrite = some 2 := by decide

/-- C4 (amended): the occupancy high-water-mark is updated during
`_prepare_storage_for_frame`, i.e. before `process_message` performs the
payload write: the write step never changes `_max_frame_index` (the final
value is whatever preparation set), and every submit trace is the
preparation events followed by the write event. -/
theorem C4_hwm_before_write (s : WriterState) (fi p : Int) :
    (process_message s fi p).1.maxFrameIndex =
      (prepare_storage_for_frame s fi).1.maxFrameIndex ∧
    (process_message s fi p).2 =
      (prepare_storage_for_frame s fi).2.2 ++
        [Ev.writeChunk (prepare_storage_for_frame s fi).2.1 p] :=
  ⟨process_message_maxFrameIndex s fi p, process_message_events s fi p⟩

/-- C6: when a submitted frame's chunk id differs from the open container's,
the submit performs exactly one attribute finalization, exactly one close and
exactly one open, in that order (finalization at trace index 0, close at 1,
open at 2): the previous container is closed exactly once, before the new one
opens, and no second container is ever open in between. -/
theorem C6_rollover (s : WriterState) (f : H5File) (c fi p : Int)
    (hf : s.file = some f) (hc : s.currentFrameChunk = some c)
    (hfpf : s.cfg.framesPerFile ≠ 0)
    (hdiff : c ≠ Int.fdiv fi (s.cfg.framesPerFile : Int) + 1) :
    ((process_message s fi p).2.countP Ev.isClose = 1) ∧
    ((process_message s fi p).2.countP Ev.isFinalize = 1) ∧
    ((process_message s fi p).2.countP Ev.isOpen = 1) ∧
    ((process_message s fi p).2.findIdx? Ev.isFinalize = some 0) ∧
    ((process_message s fi p).2.findIdx? Ev.isClose = some 1) ∧
    ((process_message s fi p).2.findIdx? Ev.isOpen = some 2) := by
  have hr := route_events_rollover s f c fi hf hc hfpf hdiff
  rcases hwm_step_events
      (expand_step (route_and_open s fi).1 (route_and_open s fi).2.1)
      (route_and_open s fi).2.1 with hh | hh <;>
    rw [process_message_events, prepare_events, hr, hh] <;>
    refine ⟨?_, ?_, ?_, ?_, ?_, ?_⟩ <;>
    simp [List.countP_append, List.countP_cons, List.findIdx?,
      Ev.isClose, Ev.isFinalize, Ev.isOpen]

/-- C6 witness: with capacity 4 and chunk 1 open, submitting frame 4 (chunk 2)
rolls the container over with one finalize, one close, then one open. -/
theorem C6_rollover_witness :
    ((process_message (runFrames init4 [(0, 50)]) 4 60).2.countP Ev.isClose = 1) ∧
    ((process_message (runFrames init4 [(0, 50)]) 4 60).2.countP Ev.isFinalize = 1) ∧
    ((process_message (runFrames init4 [(0, 50)]) 4 60).2.countP Ev.isOpen = 1) ∧
    ((process_message (runFrames init4 [(0, 50)]) 4 60).2.findIdx? Ev.isFinalize =
      some 0) ∧
    ((process_message (runFrames init4 [(0, 50)]) 4 60).2.findIdx? Ev.isClose =
      some 1) ∧
    ((process_message (runFrames init4 [(0, 50)]) 4 60).2.findIdx? Ev.isOpen =
      some 2) :=
  C6_rollover (runFrames init4 [(0, 50)]) ⟨1, 1, [(0, 50)], []⟩ 1 4 60
    (by decide) (by decide) (by decide) (by decide)

/-- C7: `stop` is idempotent: after a `stop`, a second `stop` leaves the
state unchanged and performs no events (in particular no second
finalization); `stop` on a state with no open file is a no-op; and `stop` on
a state with an open file performs exactly one finalization and one close. -/
theorem C7_stop_idem (s : WriterState) :
    ((stop ((stop s).1)).1 = (stop s).1) ∧
    ((stop ((stop s).1)).2 = []) ∧
    (s.file = none → stop s = (s, [])) ∧
    (∀ f, s.file = some f →
      (stop s).2.countP Ev.isFinalize = 1 ∧ (stop s).2.countP Ev.isClose = 1) := by
  cases hsf : s.file with
  | none =>
    have h1 := stop_of_none s hsf
    have h2 : (stop s).1 = s := by rw [h1]
    exact ⟨by rw [h2, h1], by rw [h2, h1], fun _ => h1,
      fun f hf => Option.noConfusion hf⟩
  | some f =>
    have h1 := stop_of_some s f hsf
    have h2 := close_file_some s f hsf
    have hclosed : (stop s).1.file = none := by rw [h1, h2]
    have h3 := stop_of_none ((stop s).1) hclosed
    refine ⟨by rw [h3], by rw [h3], fun hn => Option.noConfusion hn,
      fun g hg => ?_⟩
    rw [h1, h2]
    constructor <;>
      simp [List.countP_cons, Ev.isFinalize, Ev.isClose]

/-- C7 witness: stopping a writer with an open chunk-1 container finalizes
once; stopping again leaves the state unchanged. -/
theorem C7_stop_idem_witness :
    ((stop ((stop ((create_file init4 1).1)).1)).1 =
      (stop ((create_file init4 1).1)).1) ∧
    ((stop ((create_file init4 1).1)).2.countP Ev.isFinalize = 1) :=
  ⟨(C7_stop_idem ((create_file init4 1).1)).1,
   ((C7_stop_idem ((create_file init4 1).1)).2.2.2 ⟨1, 1, [], []⟩ (by decide)).1⟩

/-- C8: with capacity 4, the frame sequence 0 (chunk 1), 4 (chunk 2),
1 (chunk 1 again) makes the engine reopen chunk 1's output file in
truncating mode: after the second frame the on-disk chunk-1 file held the
finalized write of frame 0, but after the backwards frame and `stop` it
holds only frame 1's write — the earlier content was discarded. -/
theorem C8_backwards_chunk_truncates :
    ((fsGet (runFrames init4 [(0, 100), (4, 200)]).fs 1).map H5File.writes =
      some [(0, 100)]) ∧
    ((fsGet (stop (runFrames init4 [(0, 100), (4, 200), (1, 300)])).1.fs 1).map
        H5File.writes = some [(1, 300)]) ∧
    ((0, 100) ∉
      ((fsGet (stop (runFrames init4 [(0, 100), (4, 200), (1, 300)])).1.fs 1).map
          H5File.writes).getD []) ∧
    ((fsGet (stop (runFrames init4 [(0, 100), (4, 200), (1, 300)])).1.fs 1).map
        H5File.attrs = some [("data:image_nr_low", 1), ("data:image_nr_high", 2)]) ∧
    ((fsGet (stop (runFrames init4 [(0, 100), (4, 200), (1, 300)])).1.fs 2).map
        H5File.writes = some [(0, 200)]) := by decide

theorem expand_step_none (s : WriterState) (fi : Int) (h : s.file = none) :
    expand_step s fi = s := by
  unfold expand_step
  split
  · rfl
  · rw [h]

theorem close_recorded_attrs_coreEq (s t : WriterState) (h : coreEq s t) :
    close_recorded_attrs s = close_recorded_attrs t := by
  obtain ⟨hc, hf, hm, hch, _⟩ := h
  unfold close_recorded_attrs
  rw [hc, hm, hch, hf]

theorem coreEq_hwm (s t : WriterState) (fi : Int) (h : coreEq s t) :
    coreEq (hwm_step s fi).1 (hwm_step t fi).1 := by
  obtain ⟨hc, hf, hm, hch, hd⟩ := h
  unfold hwm_step
  rw [hm]
  by_cases hlt : t.maxFrameIndex < fi
  · rw [if_pos hlt, if_pos hlt]
    exact ⟨hc, hf, rfl, hch, hd⟩
  · rw [if_neg hlt, if_neg hlt]
    exact ⟨hc, hf, hm, hch, hd⟩

theorem coreEq_expand (s t : WriterState) (fi : Int) (h : coreEq s t) :
    coreEq (expand_step s fi) (expand_step t fi) := by
  obtain ⟨hc, hf, hm, hch, hd⟩ := h
  cases hsf : s.file with
  | none =>
    have htf : t.file = none := hf.symm.trans hsf
    rw [expand_step_none s fi hsf, expand_step_none t fi htf]
    exact ⟨hc, hf, hm, hch, hd⟩
  | some f =>
    have htf : t.file = some f := hf.symm.trans hsf
    have hsize : s.currentDatasetSize = t.currentDatasetSize :=
      hd (by rw [hsf]; simp)
    unfold expand_step
    rw [hsf, htf, hsize]
    by_cases hlt : fi < (t.currentDatasetSize : Int)
    · rw [if_pos hlt, if_pos hlt]
      exact ⟨hc, hf, hm, hch, hd⟩
    · rw [if_neg hlt, if_neg hlt]
      exact ⟨hc, rfl, hm, hch, fun _ => rfl⟩

theorem coreEq_close (s t : WriterState) (h : coreEq s t) :
    coreEq (close_file s).1 (close_file t).1 := by
  obtain ⟨hc, hf, hm, hch, hd⟩ := h
  cases hsf : s.file with
  | none =>
    have htf : t.file = none := hf.symm.trans hsf
    rw [(close_file_file s hsf).1, (close_file_file t htf).1]
    exact ⟨hc, hf, hm, hch, hd⟩
  | some f =>
    have htf : t.file = some f := hf.symm.trans hsf
    rw [close_file_some s f hsf, close_file_some t f htf]
    exact ⟨hc, rfl, rfl, rfl, fun hn => absurd rfl hn⟩

theorem create_file_maxFrameIndex (s : WriterState) (k : Int) :
    (create_file s k).1.maxFrameIndex =
      if s.file.isSome then 0 else s.maxFrameIndex := by
  unfold create_file
  by_cases ho : s.file.isSome = true
  · rw [if_pos ho, if_pos ho]
    cases hsf : s.file with
    | none => rw [hsf] at ho; cases ho
    | some f => rw [close_file_some s f hsf]
  · rw [if_neg ho, if_neg ho]

theorem coreEq_create (s t : WriterState) (k : Int) (h : coreEq s t) :
    coreEq (create_file s k).1 (create_file t k).1 := by
  have hps := create_file_proj s k
  have hpt := create_file_proj t k
  have hc : s.cfg = t.cfg := h.1
  have hf : s.file = t.file := h.2.1
  have hm : s.maxFrameIndex = t.maxFrameIndex := h.2.2.1
  refine ⟨?_, ?_, ?_, ?_, fun _ => ?_⟩
  · rw [hps.1, hpt.1, hc]
  · rw [hps.2.1, hpt.2.1, hc]
  · rw [create_file_maxFrameIndex, create_file_maxFrameIndex, hf, hm]
  · rw [hps.2.2.2, hpt.2.2.2]
  · rw [hps.2.2.1, hpt.2.2.1, hc]

theorem coreEq_route (s t : WriterState) (fi : Int) (h : coreEq s t) :
    (route_and_open s fi).2.1 = (route_and_open t fi).2.1 ∧
    coreEq (route_and_open s fi).1 (route_and_open t fi).1 := by
  have hc : s.cfg = t.cfg := h.1
  have hf : s.file = t.file := h.2.1
  have hch : s.currentFrameChunk = t.currentFrameChunk := h.2.2.2.1
  unfold route_and_open
  rw [hc, hf, hch]
  by_cases hfpf : t.cfg.framesPerFile ≠ 0
  · rw [if_pos hfpf, if_pos hfpf]
    simp only
    by_cases hmis : t.currentFrameChunk ≠
        some (Int.fdiv fi (t.cfg.framesPerFile : Int) + 1)
    · rw [if_pos hmis, if_pos hmis]
      exact ⟨trivial, coreEq_create s t _ h⟩
    · rw [if_neg hmis, if_neg hmis]
      exact ⟨trivial, h⟩
  · rw [if_neg hfpf, if_neg hfpf]
    by_cases hnone : t.file.isNone = true
    · rw [if_pos hnone, if_pos hnone]
      exact ⟨rfl, coreEq_create s t 0 h⟩
    · rw [if_neg hnone, if_neg hnone]
      exact ⟨rfl, h⟩

theorem coreEq_prepare (s t : WriterState) (fi : Int) (h : coreEq s t) :
    (prepare_storage_for_frame s fi).2.1 =
      (prepare_storage_for_frame t fi).2.1 ∧
    coreEq (prepare_storage_for_frame s fi).1
      (prepare_storage_for_frame t fi).1 := by
  obtain ⟨hrel, hcore⟩ := coreEq_route s t fi h
  constructor
  · rw [prepare_unfold, prepare_unfold]
    exact hrel
  · rw [prepare_unfold, prepare_unfold]
    simp only
    rw [hrel]
    exact coreEq_hwm _ _ _ (coreEq_expand _ _ _ hcore)

theorem coreEq_pm (s t : WriterState) (fi p : Int) (h : coreEq s t) :
    coreEq (process_message s fi p).1 (process_message t fi p).1 := by
  obtain ⟨hrel, hcore⟩ := coreEq_prepare s t fi h
  have hc := hcore.1
  have hf : (prepare_storage_for_frame s fi).1.file =
      (prepare_storage_for_frame t fi).1.file := hcore.2.1
  have hm := hcore.2.2.1
  have hch := hcore.2.2.2.1
  have hd := hcore.2.2.2.2
  rw [process_message_unfold, process_message_unfold]
  simp only
  rw [hf, hrel]
  cases htf : (prepare_storage_for_frame t fi).1.file with
  | none => exact hcore
  | some f =>
    exact ⟨hc, rfl, hm, hch, fun _ => hd (by rw [hf, htf]; simp)⟩

theorem coreEq_runFrames (s t : WriterState) (frames : List (Int × Int))
    (h : coreEq s t) : coreEq (runFrames s frames) (runFrames t frames) := by
  induction frames generalizing s t with
  | nil => exact h
  | cons fr rest ih => exact ih _ _ (coreEq_pm s t fr.1 fr.2 h)

theorem coreEq_after_close (s t : WriterState) (f g : H5File)
    (hs : s.file = some f) (ht : t.file = some g) (hcfg : s.cfg = t.cfg) :
    coreEq (close_file s).1 (close_file t).1 := by
  rw [close_file_some s f hs, close_file_some t g ht]
  exact ⟨hcfg, rfl, rfl, rfl, fun hn => absurd rfl hn⟩

/-- C10: every completion of `_close_file` on an open container resets the
per-container tracking state — the file handle becomes `None`, the current
chunk id becomes `None` and the high-water-mark returns to 0 — and
consequently the `image_nr` attributes any later close would record after
processing further frames depend only on those frames (and the
configuration), never on what was written before the close. -/
theorem C10_close_resets (s t : WriterState) (f g : H5File)
    (hs : s.file = some f) (ht : t.file = some g) (hcfg : s.cfg = t.cfg) :
    ((close_file s).1.file = none ∧
     (close_file s).1.currentFrameChunk = none ∧
     (close_file s).1.maxFrameIndex = 0) ∧
    ∀ frames : List (Int × Int),
      close_recorded_attrs (runFrames (close_file s).1 frames) =
        close_recorded_attrs (runFrames (close_file t).1 frames) := by
  constructor
  · rw [close_file_some s f hs]
    exact ⟨rfl, rfl, rfl⟩
  · intro frames
    exact close_recorded_attrs_coreEq _ _
      (coreEq_runFrames _ _ frames (coreEq_after_close s t f g hs ht hcfg))

/-- C10 witness: two writers with different histories (one frame written to
chunk 1 versus four frames spanning chunks 1 and 2) agree, after closing and
then processing frame 8, on the attributes the next close would record. -/
theorem C10_close_resets_witness :
    ((close_file (runFrames init4 [(0, 50)])).1.file = none ∧
     (close_file (runFrames init4 [(0, 50)])).1.currentFrameChunk = none ∧
     (close_file (runFrames init4 [(0, 50)])).1.maxFrameIndex = 0) ∧
    close_recorded_attrs
        (runFrames (close_file (runFrames init4 [(0, 50)])).1 [(8, 70)]) =
      close_recorded_attrs
        (runFrames
          (close_file (runFrames init4 [(0, 60), (1, 61), (4, 62)])).1
          [(8, 70)]) := by
  have h := C10_close_resets (runFrames init4 [(0, 50)])
    (runFrames init4 [(0, 60), (1, 61), (4, 62)])
    ⟨1, 1, [(0, 50)], []⟩ ⟨2, 1, [(0, 62)], []⟩
    (by decide) (by decide) (by decide)
  exact ⟨h.1, h.2 [(8, 70)]⟩

end MflowH5Writer
